import Mathlib

/- Shallow embedding of the LarsHoliday adaptive fetch-orchestration and
ranking core (src/rate_limit_bypass.py, src/scraper_health.py,
src/holland_agent.py, src/deal_ranker.py).  Time is modelled as rational
seconds; Python floats are modelled as exact rationals. -/

namespace LarsHoliday

/-- A single recorded price observation, as appended to the per-property
price list by PriceAlertSystem.track_property (src/rate_limit_bypass.py). -/
structure PriceEntry where
  price : ℚ
  date : ℚ
  source : String
  deriving Repr, DecidableEq

/-- Per-property record held in the alerts store of PriceAlertSystem
(src/rate_limit_bypass.py): the dict created on first track of a property. -/
structure PropertyRecord where
  name : String
  url : String
  source : String
  prices : List PriceEntry
  alert_threshold : ℚ
  last_alert : Option ℚ
  deriving Repr, DecidableEq

/-- Replace the binding of a key in an association list, appending at the
end when the key is absent; models assignment into a Python dict. -/
def assocSet : List (String × α) → String → α → List (String × α)
  | [], k, v => [(k, v)]
  | (k0, v0) :: t, k, v =>
    if k0 = k then (k, v) :: t else (k0, v0) :: assocSet t k v

/-- State of the PriceAlertSystem class (src/rate_limit_bypass.py):
the constructor default for alert_threshold is 0.20 and the properties
table starts empty (persistence to disk is outside the embedding). -/
structure PriceAlertSystem where
  alert_threshold : ℚ
  properties : List (String × PropertyRecord)
  deriving Repr, DecidableEq

/-- Embedding of PriceAlertSystem.track_property
(src/rate_limit_bypass.py lines 320-388).  The argument now is the clock
value datetime.now() in seconds.  The formatted alert message is abstracted
to the returned triggered flag: the source builds a non-empty message
exactly when it sets alert_triggered.  The source signature takes only
(property_id, name, price, url, source): it has no dedupe window, no
cooldown check and no per-call threshold or cooldown parameter. -/
def PriceAlertSystem.track_property (sys : PriceAlertSystem)
    (property_id name : String) (price : ℚ) (url source : String)
    (now : ℚ) : Bool × PriceAlertSystem :=
  let prop0 : PropertyRecord :=
    match sys.properties.lookup property_id with
    | some p => p
    | none => ⟨name, url, source, [], sys.alert_threshold, none⟩
  let prices1 := prop0.prices ++ [⟨price, now, source⟩]
  let res : Bool × Option ℚ :=
    match prop0.prices.getLast? with
    | none => (false, prop0.last_alert)
    | some prev =>
      if prev.price > price then
        let drop := (prev.price - price) / prev.price
        if drop ≥ prop0.alert_threshold then (true, some now)
        else (false, prop0.last_alert)
      else (false, prop0.last_alert)
  let prices2 :=
    if prices1.length > 10 then prices1.drop (prices1.length - 10) else prices1
  let prop1 : PropertyRecord :=
    { prop0 with prices := prices2, last_alert := res.2 }
  (res.1, { sys with properties := assocSet sys.properties property_id prop1 })

/-- Embedding of PriceAlertSystem.get_history (src/rate_limit_bypass.py). -/
def PriceAlertSystem.get_history (sys : PriceAlertSystem)
    (property_id : String) : List PriceEntry :=
  match sys.properties.lookup property_id with
  | some p => p.prices
  | none => []

/-- A fresh alert system with the constructor defaults of
PriceAlertSystem (alert_threshold 0.20, empty store). -/
def alertsDefault : PriceAlertSystem := ⟨1/5, []⟩

/-- C1 scenario, first call: baseline observation of 100 at time 0. -/
def c1run1 : Bool × PriceAlertSystem :=
  alertsDefault.track_property "p1" "Prop" 100 "u" "airbnb" 0

/-- C1 scenario, second call: price 70 at time 60 s (a 30 percent drop). -/
def c1run2 : Bool × PriceAlertSystem :=
  (c1run1.2).track_property "p1" "Prop" 70 "u" "airbnb" 60

/-- C1 scenario, third call: price 49 at time 120 s (another 30 percent
drop, 60 s after the alert just raised, far inside the claimed 120 minute
cooldown window). -/
def c1run3 : Bool × PriceAlertSystem :=
  (c1run2.2).track_property "p1" "Prop" 49 "u" "airbnb" 120

/-- C1: the code has no cooldown check at all (last_alert is written but
never read), so a second qualifying drop 60 seconds after an alert
triggers again, although the claimed 120 minute cooldown has not elapsed:
the second call triggers at time 60, and the third call triggers again at
time 120 even though only 60 s of the 7200 s cooldown have passed. -/
theorem c1_track_property_retriggers_within_cooldown :
    c1run2.1 = true ∧ c1run3.1 = true ∧ (120 : ℚ) - 60 < 120 * 60 := by
  refine ⟨?_, ?_, by norm_num⟩ <;>
    norm_num [c1run3, c1run2, c1run1, alertsDefault,
      PriceAlertSystem.track_property, assocSet, List.lookup]

/-- C2 scenario, first call: baseline observation of 200 at time 0. -/
def c2run1 : Bool × PriceAlertSystem :=
  alertsDefault.track_property "p2" "Override" 200 "u" "booking" 0

/-- C2 scenario, second call: price 180 at time 60 s, a 10 percent drop. -/
def c2run2 : Bool × PriceAlertSystem :=
  (c2run1.2).track_property "p2" "Override" 180 "u" "booking" 60

/-- C2: track_property has no per-call threshold parameter, so the claimed
call with a 0.05 override cannot be expressed; the only threshold the code
can consult is the stored default 0.20, under which the 10 percent drop of
the claimed scenario does not trigger, even though it would satisfy the
claimed 0.05 override. -/
theorem c2_track_property_has_no_threshold_override :
    c2run2.1 = false ∧ (c2run2.2).alert_threshold = 1/5 ∧
      (200 - 180 : ℚ) / 200 ≥ 1/20 := by
  refine ⟨?_, ?_, by norm_num⟩ <;>
    norm_num [c2run2, c2run1, alertsDefault,
      PriceAlertSystem.track_property, assocSet, List.lookup]

/-- C3 scenario, first call: observation of 90 at time 0. -/
def c3run1 : Bool × PriceAlertSystem :=
  alertsDefault.track_property "p1" "Prop" 90 "u" "airbnb" 0

/-- C3 scenario, second call: the identical price 90 again at time 60 s,
inside the claimed 10 minute dedupe window. -/
def c3run2 : Bool × PriceAlertSystem :=
  (c3run1.2).track_property "p1" "Prop" 90 "u" "airbnb" 60

/-- C3: the code has no dedupe window: re-observing the same price 60
seconds later (inside the claimed 10 minute window) returns not-triggered
but still appends a new entry, so the history grows from 1 to 2. -/
theorem c3_track_property_appends_duplicate_within_dedupe_window :
    c3run2.1 = false ∧ ((c3run2.2).get_history "p1").length = 2 ∧
      (60 : ℚ) < 10 * 60 := by
  refine ⟨?_, ?_, by norm_num⟩ <;>
    norm_num [c3run2, c3run1, alertsDefault, PriceAlertSystem.track_property,
      PriceAlertSystem.get_history, assocSet, List.lookup]

/-- Remove the binding of a key from an association list; models deletion
from a Python dict (which holds each key at most once). -/
def assocErase (l : List (String × β)) (k : String) : List (String × β) :=
  l.filter (fun kv => kv.1 != k)

/-- State of the Cache class (src/rate_limit_bypass.py lines 212-288):
ttl is in seconds (the constructor takes ttl_minutes, default 30, so ttl
is ttl_minutes * 60) and data maps keys to (value, timestamp).  The disk
mirror replays the same table and is outside the embedding. -/
structure Cache (α : Type) where
  ttl : ℚ
  data : List (String × α × ℚ)

/-- Embedding of Cache.set (src/rate_limit_bypass.py): stores the value
with the current timestamp. -/
def Cache.set (c : Cache α) (key : String) (value : α) (now : ℚ) : Cache α :=
  { c with data := assocSet c.data key (value, now) }

/-- Embedding of Cache.get (src/rate_limit_bypass.py lines 258-267):
returns the stored value while now - timestamp < ttl, otherwise deletes
the entry and misses.  Returns the possibly-updated cache alongside. -/
def Cache.get (c : Cache α) (key : String) (now : ℚ) : Option α × Cache α :=
  match c.data.lookup key with
  | none => (none, c)
  | some (value, timestamp) =>
    if now - timestamp < c.ttl then (some value, c)
    else (none, { c with data := assocErase c.data key })

theorem lookup_assocSet (l : List (String × β)) (k : String) (v : β) :
    (assocSet l k v).lookup k = some v := by
  induction l with
  | nil => simp [assocSet, List.lookup]
  | cons hd t ih =>
    obtain ⟨k0, v0⟩ := hd
    by_cases h : k0 = k
    · simp [assocSet, h, List.lookup]
    · have hbeq : (k == k0) = false := beq_eq_false_iff_ne.mpr (Ne.symm h)
      simp [assocSet, h, List.lookup, hbeq, ih]

theorem lookup_assocErase (l : List (String × β)) (k : String) :
    (assocErase l k).lookup k = none := by
  induction l with
  | nil => simp [assocErase, List.lookup]
  | cons hd t ih =>
    obtain ⟨k0, v0⟩ := hd
    by_cases h : k0 = k
    · simpa [assocErase, h] using ih
    · have hbeq : (k == k0) = false := beq_eq_false_iff_ne.mpr (Ne.symm h)
      have hne : (k0 != k) = true := by simp [h]
      simpa [assocErase, hne, List.lookup, hbeq] using ih

/-- C7: a value stored by Cache.set is returned by Cache.get on the same
key while strictly less than the TTL has elapsed since the set; once the
elapsed time reaches the TTL the get misses and the expired entry is
evicted from the store. -/
theorem c7_cache_get_within_ttl_hit_after_ttl_evicts
    {α : Type} (c : Cache α) (key : String) (v : α) (tset now : ℚ) :
    (now - tset < c.ttl →
      Cache.get (Cache.set c key v tset) key now =
        (some v, Cache.set c key v tset)) ∧
    (c.ttl ≤ now - tset →
      (Cache.get (Cache.set c key v tset) key now).1 = none ∧
      ((Cache.get (Cache.set c key v tset) key now).2.data.lookup key =
        none)) := by
  constructor
  · intro h
    simp [Cache.get, Cache.set, lookup_assocSet, h]
  · intro h
    have h2 : ¬ (now - tset < c.ttl) := not_lt.mpr h
    constructor
    · simp [Cache.get, Cache.set, lookup_assocSet, h2]
    · simp [Cache.get, Cache.set, lookup_assocSet, h2, lookup_assocErase]

/-- Witness for C7 at a concrete input: TTL 30 minutes (1800 s), a value
stored at time 0, read back at 600 s (hit with the stored value) and at
exactly 1800 s (miss, entry evicted). -/
theorem c7_witness :
    (Cache.get (Cache.set (⟨1800, []⟩ : Cache ℕ) "k" 7 0) "k" 600 =
      (some 7, Cache.set (⟨1800, []⟩ : Cache ℕ) "k" 7 0)) ∧
    ((Cache.get (Cache.set (⟨1800, []⟩ : Cache ℕ) "k" 7 0) "k" 1800).1 =
        none ∧
      ((Cache.get (Cache.set (⟨1800, []⟩ : Cache ℕ) "k" 7 0) "k"
          1800).2.data.lookup "k" = none)) :=
  ⟨(c7_cache_get_within_ttl_hit_after_ttl_evicts
      (⟨1800, []⟩ : Cache ℕ) "k" 7 0 600).1 (by norm_num),
   (c7_cache_get_within_ttl_hit_after_ttl_evicts
      (⟨1800, []⟩ : Cache ℕ) "k" 7 0 1800).2 (by norm_num)⟩

/-- Embedding of ExponentialBackoff.get_delay (src/rate_limit_bypass.py
lines 185-191): the exponential component 2 ^ attempt * base_delay is
capped at 120 s, and the random jitter uniform(0, min(10, 0.3 * delay))
is modelled by the parameter j, constrained to that sampling interval in
the theorem about this definition. -/
def ExponentialBackoff.get_delay (attempt : ℕ) (base_delay : ℚ)
    (j : ℚ) : ℚ :=
  let delay := min 120 (2 ^ attempt * base_delay)
  delay + j

/-- C8: with the default base delay of 10 s, get_delay is at most 130 s
for every attempt count and every jitter sample in the sampling interval
[0, min(10, 0.3 * delay)]: the capped exponential part is at most 120 s
and the jitter at most 10 s. -/
theorem c8_backoff_delay_at_most_130 (attempt : ℕ) (j : ℚ)
    (hj0 : 0 ≤ j)
    (hj1 : j ≤ min 10 (min 120 (2 ^ attempt * 10) * (3/10))) :
    ExponentialBackoff.get_delay attempt 10 j ≤ 130 := by
  have h1 : min 120 (2 ^ attempt * (10 : ℚ)) ≤ 120 := min_le_left _ _
  have h2 : j ≤ 10 := le_trans hj1 (min_le_left _ _)
  simp only [ExponentialBackoff.get_delay]
  linarith

/-- Witness for C8 at a concrete input: attempt 7 (exponential part 1280
capped to 120) with jitter sample 5 inside [0, min(10, 36)]. -/
theorem c8_witness : ExponentialBackoff.get_delay 7 10 5 ≤ 130 :=
  c8_backoff_delay_at_most_130 7 5 (by norm_num) (by norm_num [min_def])

/-- A listing as consumed by DealRanker.rank_deals (src/deal_ranker.py).
Numeric dict entries are modelled as rationals; weather_bonus carries the
value of deal.get with default 1.0, so an absent key is the value 1. -/
structure RankDeal where
  name : String
  price_per_night : ℚ
  currency : String
  fx_rate_to_eur : Option ℚ
  rating : ℚ
  reviews : ℚ
  pet_friendly : Bool
  weather_bonus : ℚ

/-- The fixed exchange-rate table fx_rates_to_eur of DealRanker
(src/deal_ranker.py lines 37-45), as exact rationals. -/
def DealRanker.fx_rates_to_eur : List (String × ℚ) :=
  [("EUR", 1), ("USD", 23/25), ("GBP", 117/100), ("CHF", 103/100),
   ("NOK", 17/200), ("SEK", 11/125), ("DKK", 67/500)]

/-- Embedding of DealRanker._normalize_price_to_eur
(src/deal_ranker.py lines 152-163): non-positive prices normalize to 0, a
positive custom rate wins, otherwise the table rate (unknown currencies
pass through at rate 1); an empty currency string falls back to EUR. -/
def DealRanker.normalize_price_to_eur (price : ℚ) (currency : String)
    (custom_rate : Option ℚ) : ℚ :=
  if price ≤ 0 then 0
  else
    match custom_rate with
    | some r =>
      if 0 < r then price * r
      else
        let code := (if currency = "" then "EUR" else currency).toUpper
        price * ((DealRanker.fx_rates_to_eur.lookup code).getD 1)
    | none =>
      let code := (if currency = "" then "EUR" else currency).toUpper
      price * ((DealRanker.fx_rates_to_eur.lookup code).getD 1)

/-- Embedding of DealRanker._calculate_base_score
(src/deal_ranker.py lines 109-137): price score floored at 0, rating
times 6, review score capped at 20; a non-positive price short-circuits
the whole base score to 0. -/
def DealRanker.calculate_base_score (d : RankDeal) : ℚ :=
  if d.price_per_night ≤ 0 then 0
  else
    let price_score :=
      if 40 - d.price_per_night / 3 < 0 then 0
      else 40 - d.price_per_night / 3
    let rating_score := d.rating * 6
    let review_score := if d.reviews / 20 > 20 then 20 else d.reviews / 20
    price_score + rating_score + review_score

/-- Embedding of DealRanker._apply_multipliers
(src/deal_ranker.py lines 139-150): times 1.4 when pet-friendly, then
times the weather bonus. -/
def DealRanker.apply_multipliers (score : ℚ) (d : RankDeal) : ℚ :=
  let s1 := if d.pet_friendly then score * (7/5) else score
  s1 * d.weather_bonus

/-- The pre-multiplier score of a deal as computed inside
DealRanker.rank_deals (src/deal_ranker.py lines 60-78): the base score of
the deal with its price normalized to EUR. -/
def DealRanker.pre_multiplier_score (d : RankDeal) : ℚ :=
  let np :=
    DealRanker.normalize_price_to_eur d.price_per_night d.currency
      d.fx_rate_to_eur
  DealRanker.calculate_base_score { d with price_per_night := np }

/-- The full (unrounded) score of a deal as computed inside
DealRanker.rank_deals before the 1-digit display rounding: the base score
on the normalized deal, with the multipliers applied. -/
def DealRanker.deal_score (d : RankDeal) : ℚ :=
  let np :=
    DealRanker.normalize_price_to_eur d.price_per_night d.currency
      d.fx_rate_to_eur
  let ds := { d with price_per_night := np }
  DealRanker.apply_multipliers (DealRanker.calculate_base_score ds) ds

/-- C9: for two listings identical in all fields except pet_friendly,
with the weather bonus at its default 1.0, the score of the pet-friendly
listing is exactly 1.4 times the pre-multiplier score (price score +
rating score + review score) of the non-pet-friendly listing. -/
theorem c9_pet_friendly_scores_1_4_times (d : RankDeal)
    (hw : d.weather_bonus = 1) :
    DealRanker.deal_score { d with pet_friendly := true } =
      (7/5) * DealRanker.pre_multiplier_score
        { d with pet_friendly := false } := by
  simp only [DealRanker.deal_score, DealRanker.pre_multiplier_score,
    DealRanker.apply_multipliers, DealRanker.calculate_base_score,
    DealRanker.normalize_price_to_eur, if_true, hw]
  ring

/-- Witness for C9 at a concrete listing (90 EUR per night, rating 4.5,
100 reviews, default weather bonus 1). -/
theorem c9_witness :
    DealRanker.deal_score
        ⟨"Casa", 90, "EUR", none, 9/2, 100, true, 1⟩ =
      (7/5) * DealRanker.pre_multiplier_score
        ⟨"Casa", 90, "EUR", none, 9/2, 100, false, 1⟩ :=
  c9_pet_friendly_scores_1_4_times
    ⟨"Casa", 90, "EUR", none, 9/2, 100, false, 1⟩ rfl

/-- Record of a single scraping attempt (src/scraper_health.py,
dataclass AttemptRecord). -/
structure AttemptRecord where
  timestamp : ℚ
  source : String
  strategy : String
  success : Bool
  duration_seconds : ℚ
  result_count : ℤ
  error : Option String
  deriving Repr, DecidableEq

/-- Embedding of StrategyMetrics.get_recent_records
(src/scraper_health.py lines 102-115): keeps records whose timestamp is
at least now minus the window, filtered by the optional source and
strategy. -/
def StrategyMetrics.get_recent_records (records : List AttemptRecord)
    (source strategy : Option String) (window_minutes now : ℚ) :
    List AttemptRecord :=
  let cutoff := now - window_minutes * 60
  records.filter (fun r =>
    decide (cutoff ≤ r.timestamp) &&
    (match source with
     | none => true
     | some s => r.source == s) &&
    (match strategy with
     | none => true
     | some s => r.strategy == s))

/-- Embedding of StrategyMetrics.get_success_rate
(src/scraper_health.py lines 117-134): the pair (rate, attempt count),
with the sentinel (-1, 0) when no record is in the window. -/
def StrategyMetrics.get_success_rate (records : List AttemptRecord)
    (source strategy : String) (window_minutes now : ℚ) : ℚ × ℕ :=
  let rs := StrategyMetrics.get_recent_records records (some source)
    (some strategy) window_minutes now
  if rs.isEmpty then (-1, 0)
  else (((rs.filter (fun r => r.success)).length : ℚ) / (rs.length : ℚ),
    rs.length)

/-- Embedding of StrategyMetrics.get_avg_duration
(src/scraper_health.py lines 136-149): the average duration of the
successful attempts in the window, 0 when there is none. -/
def StrategyMetrics.get_avg_duration (records : List AttemptRecord)
    (source strategy : String) (window_minutes now : ℚ) : ℚ :=
  let rs := (StrategyMetrics.get_recent_records records (some source)
    (some strategy) window_minutes now).filter (fun r => r.success)
  if rs.isEmpty then 0
  else (rs.map (fun r => r.duration_seconds)).sum / (rs.length : ℚ)

/-- Count of failures at the front of a list; helper for the reversed
scan of get_consecutive_failures. -/
def leadingFailures : List AttemptRecord → ℕ
  | [] => 0
  | r :: t => if r.success then 0 else 1 + leadingFailures t

/-- Embedding of StrategyMetrics.get_consecutive_failures
(src/scraper_health.py lines 151-159): walks the records of the source
from the most recent backward, counting until the first success. -/
def StrategyMetrics.get_consecutive_failures
    (records : List AttemptRecord) (source : String) : ℕ :=
  leadingFailures ((records.filter (fun r => r.source == source)).reverse)

/-- The score the router assigns a strategy inside get_strategy_order
(src/scraper_health.py lines 211-225): 0.5 when there is no data in the
default 60-minute window, otherwise 0.8 * success rate plus 0.2 * speed
score, where the speed score is max(0, 1 - avg_duration/60). -/
def AdaptiveRouter.strategy_score (records : List AttemptRecord)
    (source strategy : String) (now : ℚ) : ℚ :=
  let rc := StrategyMetrics.get_success_rate records source strategy 60 now
  if rc.1 < 0 then 1/2
  else
    let avg_dur := StrategyMetrics.get_avg_duration records source strategy
      60 now
    let speed_score := max 0 (1 - avg_dur / 60)
    (4/5) * rc.1 + (1/5) * speed_score

/-- Stable descending insertion by score into an already sorted list;
models the stability of the Python list sort with reverse=True. -/
def insertScoredDesc (x : String × ℚ) :
    List (String × ℚ) → List (String × ℚ)
  | [] => [x]
  | y :: t => if y.2 ≤ x.2 then x :: y :: t else y :: insertScoredDesc x t

/-- Stable descending sort by score (src: scored.sort by score with
reverse=True in get_strategy_order). -/
def sortScoredDesc : List (String × ℚ) → List (String × ℚ)
  | [] => []
  | x :: xs => insertScoredDesc x (sortScoredDesc xs)

/-- Embedding of AdaptiveRouter.get_strategy_order
(src/scraper_health.py lines 190-235) for an explicitly supplied strategy
list: score every available strategy, sort by score descending (stable),
drop the fallback from the sorted part and append it last when it is
among the available strategies. -/
def AdaptiveRouter.get_strategy_order (records : List AttemptRecord)
    (source : String) (available : List String) (now : ℚ) : List String :=
  let scored := available.map
    (fun st => (st, AdaptiveRouter.strategy_score records source st now))
  let sorted := sortScoredDesc scored
  let result := (sorted.map Prod.fst).filter (fun s => s != "fallback")
  if "fallback" ∈ available then result ++ ["fallback"] else result

/-- Embedding of AdaptiveRouter.should_skip_source
(src/scraper_health.py lines 237-252): skip when there are at least 5
consecutive failures and the cooldown of 30 minutes since the most
recent attempt has not elapsed, where elapsed means strictly more than
30 * 60 seconds. -/
def AdaptiveRouter.should_skip_source (records : List AttemptRecord)
    (source : String) (now : ℚ) : Bool :=
  if 5 ≤ StrategyMetrics.get_consecutive_failures records source then
    match (records.filter (fun r => r.source == source)).getLast? with
    | some r => if now - r.timestamp ≤ 30 * 60 then true else false
    | none => false
  else false

/-- Timestamp of the most recent recorded attempt for a source
(source_records[-1].timestamp in should_skip_source). -/
def AdaptiveRouter.last_attempt_time (records : List AttemptRecord)
    (source : String) : Option ℚ :=
  ((records.filter (fun r => r.source == source)).getLast?).map
    (fun r => r.timestamp)

/-- C6 amended: should_skip_source is true iff there are at least 5
consecutive failures and at most 30 minutes (inclusive) have passed since
the most recent attempt for the source; once strictly more than 30
minutes have elapsed it returns false even with 5 or more consecutive
failures.  The source compares with a strict greater-than for the
cooldown having elapsed, so the boundary at exactly 30 minutes still
skips. -/
theorem c6_should_skip_iff_failures_and_recent
    (records : List AttemptRecord) (source : String) (now : ℚ) :
    AdaptiveRouter.should_skip_source records source now = true ↔
      (5 ≤ StrategyMetrics.get_consecutive_failures records source ∧
        ∃ t, AdaptiveRouter.last_attempt_time records source = some t ∧
          now - t ≤ 30 * 60) := by
  unfold AdaptiveRouter.should_skip_source AdaptiveRouter.last_attempt_time
  by_cases h5 : 5 ≤ StrategyMetrics.get_consecutive_failures records source
  · simp only [if_pos h5]
    cases hl : (records.filter (fun r => r.source == source)).getLast? with
    | none => simp [hl, h5]
    | some r =>
      by_cases hc : now - r.timestamp ≤ 30 * 60
      · simp [hl, h5, hc]
        linarith
      · simp [hl, h5, hc]
        linarith
  · simp [if_neg h5, h5]

/-- Five consecutive failures for source airbnb at timestamps 0..4 s:
the concrete record list of the C6 counterexample. -/
def c6recs : List AttemptRecord :=
  [⟨0, "airbnb", "curl", false, 1, 0, some "e"⟩,
   ⟨1, "airbnb", "curl", false, 1, 0, some "e"⟩,
   ⟨2, "airbnb", "curl", false, 1, 0, some "e"⟩,
   ⟨3, "airbnb", "curl", false, 1, 0, some "e"⟩,
   ⟨4, "airbnb", "curl", false, 1, 0, some "e"⟩]

/-- C6 counterexample: at now = 1804 s the most recent failure (timestamp
4) is exactly 30 minutes old, so it is not less than 30 minutes old, yet
should_skip_source still returns true: the claimed if-and-only-if with a
strict less-than fails at the boundary. -/
theorem c6_counterexample_skips_at_exact_boundary :
    AdaptiveRouter.should_skip_source c6recs "airbnb" 1804 = true ∧
      5 ≤ StrategyMetrics.get_consecutive_failures c6recs "airbnb" ∧
      AdaptiveRouter.last_attempt_time c6recs "airbnb" = some 4 ∧
      ¬ ((1804 : ℚ) - 4 < 30 * 60) := by
  refine ⟨?_, ?_, ?_, by norm_num⟩ <;>
    norm_num [AdaptiveRouter.should_skip_source,
      AdaptiveRouter.last_attempt_time,
      StrategyMetrics.get_consecutive_failures, leadingFailures, c6recs]

/-- Witness for the C6 amended theorem at a concrete input: with the five
consecutive failures of c6recs and now = 1805 s (strictly past the 30
minute cooldown) the source is probed again. -/
theorem c6_witness :
    AdaptiveRouter.should_skip_source c6recs "airbnb" 1805 = false := by
  have hval : AdaptiveRouter.last_attempt_time c6recs "airbnb" = some 4 := by
    norm_num [AdaptiveRouter.last_attempt_time, c6recs]
  cases hb : AdaptiveRouter.should_skip_source c6recs "airbnb" 1805 with
  | false => rfl
  | true =>
    obtain ⟨-, t, ht, hle⟩ :=
      (c6_should_skip_iff_failures_and_recent c6recs "airbnb" 1805).mp hb
    rw [hval] at ht
    obtain rfl : (4 : ℚ) = t := Option.some_injective ℚ ht
    norm_num at hle

theorem insertScoredDesc_perm (x : String × ℚ) (l : List (String × ℚ)) :
    List.Perm (insertScoredDesc x l) (x :: l) := by
  induction l with
  | nil => exact List.Perm.refl _
  | cons y t ih =>
    by_cases h : y.2 ≤ x.2
    · simp [insertScoredDesc, h]
    · simp only [insertScoredDesc, if_neg h]
      exact (ih.cons y).trans (List.Perm.swap x y t)

theorem sortScoredDesc_perm (l : List (String × ℚ)) :
    List.Perm (sortScoredDesc l) l := by
  induction l with
  | nil => exact List.Perm.refl _
  | cons x xs ih =>
    exact (insertScoredDesc_perm x (sortScoredDesc xs)).trans (ih.cons x)

theorem insertScoredDesc_pairwise {x : String × ℚ} {l : List (String × ℚ)}
    (h : List.Pairwise (fun a b => b.2 ≤ a.2) l) :
    List.Pairwise (fun a b => b.2 ≤ a.2) (insertScoredDesc x l) := by
  induction l with
  | nil => simp [insertScoredDesc]
  | cons y t ih =>
    obtain ⟨hy, ht⟩ := List.pairwise_cons.mp h
    by_cases hle : y.2 ≤ x.2
    · simp only [insertScoredDesc, if_pos hle]
      refine List.pairwise_cons.mpr ⟨?_, h⟩
      intro z hz
      rcases List.mem_cons.mp hz with hz1 | hz2
      · exact hz1 ▸ hle
      · exact le_trans (hy z hz2) hle
    · simp only [insertScoredDesc, if_neg hle]
      refine List.pairwise_cons.mpr ⟨?_, ih ht⟩
      intro z hz
      have hz' := (insertScoredDesc_perm x t).mem_iff.mp hz
      rcases List.mem_cons.mp hz' with hz1 | hz2
      · exact hz1 ▸ le_of_lt (lt_of_not_le hle)
      · exact hy z hz2

theorem sortScoredDesc_pairwise (l : List (String × ℚ)) :
    List.Pairwise (fun a b => b.2 ≤ a.2) (sortScoredDesc l) := by
  induction l with
  | nil => simp [sortScoredDesc]
  | cons x xs ih => exact insertScoredDesc_pairwise ih

theorem pairwise_sublist_pair {α : Type} {R : α → α → Prop} :
    ∀ {l : List α}, List.Pairwise R l → ∀ {x y : α}, x ∈ l → y ∈ l →
      x ≠ y → ¬ R y x → [x, y].Sublist l := by
  intro l hp
  induction l with
  | nil => intro x y hx; cases hx
  | cons z t ih =>
    intro x y hx hy hxy hnR
    obtain ⟨hz, ht⟩ := List.pairwise_cons.mp hp
    rcases List.mem_cons.mp hx with hx1 | hx2
    · subst hx1
      rcases List.mem_cons.mp hy with hy1 | hy2
      · exact absurd hy1.symm hxy
      · exact (List.singleton_sublist.mpr hy2).cons₂ x
    · rcases List.mem_cons.mp hy with hy1 | hy2
      · exact absurd (hy1 ▸ hz x hx2) hnR
      · exact (ih ht hx2 hy2 hxy hnR).cons z

theorem strategy_score_all_success (records : List AttemptRecord)
    (source strategy : String) (now : ℚ)
    (hne : StrategyMetrics.get_recent_records records (some source)
      (some strategy) 60 now ≠ [])
    (hall : ∀ r ∈ StrategyMetrics.get_recent_records records (some source)
      (some strategy) 60 now, r.success = true) :
    (4 : ℚ)/5 ≤ AdaptiveRouter.strategy_score records source strategy now := by
  unfold AdaptiveRouter.strategy_score StrategyMetrics.get_success_rate
  set rs := StrategyMetrics.get_recent_records records (some source)
    (some strategy) 60 now with hrs
  have hEmp : rs.isEmpty = false := by
    cases h : rs with
    | nil => exact absurd h hne
    | cons a t => rfl
  have hfilter : rs.filter (fun r => r.success) = rs :=
    List.filter_eq_self.mpr hall
  have hlen : (rs.length : ℚ) ≠ 0 :=
    Nat.cast_ne_zero.mpr (by simpa [List.length_eq_zero] using hne)
  have hrate : ((rs.filter (fun r => r.success)).length : ℚ) /
      (rs.length : ℚ) = 1 := by
    rw [hfilter]
    exact div_self hlen
  simp only [hEmp, Bool.false_eq_true, if_false, hrate]
  have h1 : ¬ ((1 : ℚ) < 0) := by norm_num
  rw [if_neg h1]
  have hmax : (0 : ℚ) ≤ max 0 (1 - StrategyMetrics.get_avg_duration records
      source strategy 60 now / 60) := le_max_left _ _
  nlinarith [hmax]

theorem strategy_score_all_failure (records : List AttemptRecord)
    (source strategy : String) (now : ℚ)
    (hne : StrategyMetrics.get_recent_records records (some source)
      (some strategy) 60 now ≠ [])
    (hall : ∀ r ∈ StrategyMetrics.get_recent_records records (some source)
      (some strategy) 60 now, r.success = false) :
    AdaptiveRouter.strategy_score records source strategy now = 1/5 := by
  unfold AdaptiveRouter.strategy_score StrategyMetrics.get_success_rate
    StrategyMetrics.get_avg_duration
  set rs := StrategyMetrics.get_recent_records records (some source)
    (some strategy) 60 now with hrs
  have hEmp : rs.isEmpty = false := by
    cases h : rs with
    | nil => exact absurd h hne
    | cons a t => rfl
  have hfilter : rs.filter (fun r => r.success) = [] := by
    rw [List.filter_eq_nil_iff]
    intro r hr
    simp [hall r hr]
  simp only [hEmp, Bool.false_eq_true, if_false, hfilter]
  norm_num

theorem get_strategy_order_eq (records : List AttemptRecord)
    (source : String) (available : List String) (now : ℚ) :
    AdaptiveRouter.get_strategy_order records source available now =
      (if "fallback" ∈ available then
        ((sortScoredDesc (available.map (fun st =>
          (st, AdaptiveRouter.strategy_score records source st now)))).map
            Prod.fst).filter (fun s => s != "fallback") ++ ["fallback"]
      else
        ((sortScoredDesc (available.map (fun st =>
          (st, AdaptiveRouter.strategy_score records source st now)))).map
            Prod.fst).filter (fun s => s != "fallback")) := rfl

theorem filter_ne_append_self_perm (fb : String) :
    ∀ (l : List String), l.Nodup → fb ∈ l →
      List.Perm (l.filter (fun s => s != fb) ++ [fb]) l := by
  intro l
  induction l with
  | nil => intro _ h; cases h
  | cons x t ih =>
    intro hnd hmem
    obtain ⟨hx, hndt⟩ := List.nodup_cons.mp hnd
    by_cases hfx : x = fb
    · subst hfx
      have hft : t.filter (fun s => s != x) = t :=
        List.filter_eq_self.mpr (fun a ha => by
          have hne : a ≠ x := fun h => hx (h ▸ ha)
          simp [hne])
      have hxx : (x != x) = false := by simp
      simp only [List.filter_cons, hxx, Bool.false_eq_true, if_false, hft]
      exact List.perm_append_singleton x t
    · have hmem2 : fb ∈ t := by
        rcases List.mem_cons.mp hmem with h1 | h2
        · exact absurd h1.symm hfx
        · exact h2
      have hxx : (x != fb) = true := by simp [hfx]
      simp only [List.filter_cons, hxx, if_true, List.cons_append]
      exact (ih hndt hmem2).cons x

/-- C5: for every record history and every list of available strategies,
if strategy a has only successful attempts recorded inside the 60-minute
window and strategy b has only failed ones (each with at least one
attempt), and a is not the designated fallback, then get_strategy_order
places a before b, and the strategy named fallback, when present among
the available strategies, is always the last element of the returned
order. -/
theorem c5_order_success_before_failure_fallback_last
    (records : List AttemptRecord) (source : String)
    (available : List String) (now : ℚ) (a b : String)
    (ha : a ∈ available) (hb : b ∈ available) (hafb : a ≠ "fallback")
    (haNE : StrategyMetrics.get_recent_records records (some source)
      (some a) 60 now ≠ [])
    (haAll : ∀ r ∈ StrategyMetrics.get_recent_records records (some source)
      (some a) 60 now, r.success = true)
    (hbNE : StrategyMetrics.get_recent_records records (some source)
      (some b) 60 now ≠ [])
    (hbAll : ∀ r ∈ StrategyMetrics.get_recent_records records (some source)
      (some b) 60 now, r.success = false) :
    [a, b].Sublist
      (AdaptiveRouter.get_strategy_order records source available now) ∧
    ("fallback" ∈ available →
      (AdaptiveRouter.get_strategy_order records source available
        now).getLast? = some "fallback") := by
  have hsa : (4 : ℚ)/5 ≤ AdaptiveRouter.strategy_score records source a now :=
    strategy_score_all_success records source a now haNE haAll
  have hsb : AdaptiveRouter.strategy_score records source b now = 1/5 :=
    strategy_score_all_failure records source b now hbNE hbAll
  have hslt : AdaptiveRouter.strategy_score records source b now <
      AdaptiveRouter.strategy_score records source a now := by
    rw [hsb]; linarith
  have hpa : (a, AdaptiveRouter.strategy_score records source a now) ∈
      sortScoredDesc (available.map (fun st =>
        (st, AdaptiveRouter.strategy_score records source st now))) :=
    (sortScoredDesc_perm _).mem_iff.mpr (List.mem_map.mpr ⟨a, ha, rfl⟩)
  have hpb : (b, AdaptiveRouter.strategy_score records source b now) ∈
      sortScoredDesc (available.map (fun st =>
        (st, AdaptiveRouter.strategy_score records source st now))) :=
    (sortScoredDesc_perm _).mem_iff.mpr (List.mem_map.mpr ⟨b, hb, rfl⟩)
  have hne : (a, AdaptiveRouter.strategy_score records source a now) ≠
      (b, AdaptiveRouter.strategy_score records source b now) := by
    intro h
    exact (ne_of_gt hslt) (congrArg Prod.snd h)
  have hnR : ¬ ((a, AdaptiveRouter.strategy_score records source a now).2 ≤
      (b, AdaptiveRouter.strategy_score records source b now).2) :=
    not_le.mpr hslt
  have hsubp := pairwise_sublist_pair (sortScoredDesc_pairwise
    (available.map (fun st =>
      (st, AdaptiveRouter.strategy_score records source st now))))
    hpa hpb hne hnR
  have hnames : [a, b].Sublist ((sortScoredDesc (available.map (fun st =>
      (st, AdaptiveRouter.strategy_score records source st now)))).map
        Prod.fst) := by
    simpa using hsubp.map Prod.fst
  have hamem : a ∈ (sortScoredDesc (available.map (fun st =>
      (st, AdaptiveRouter.strategy_score records source st now)))).map
        Prod.fst :=
    List.mem_map.mpr ⟨_, hpa, rfl⟩
  rw [get_strategy_order_eq]
  by_cases hf : "fallback" ∈ available
  · rw [if_pos hf]
    refine ⟨?_, fun _ => List.getLast?_concat _⟩
    by_cases hbf : b = "fallback"
    · subst hbf
      have h1 : [a].Sublist (((sortScoredDesc (available.map (fun st =>
          (st, AdaptiveRouter.strategy_score records source st
            now)))).map Prod.fst).filter (fun s => s != "fallback")) :=
        List.singleton_sublist.mpr
          (List.mem_filter.mpr ⟨hamem, by simp [hafb]⟩)
      simpa using h1.append (List.Sublist.refl ["fallback"])
    · have h2 := hnames.filter (fun s => s != "fallback")
      have hpair : [a, b].filter (fun s => s != "fallback") = [a, b] := by
        simp [hafb, hbf]
      rw [hpair] at h2
      exact h2.trans (List.sublist_append_left _ _)
  · rw [if_neg hf]
    have hbf : b ≠ "fallback" := fun h => hf (h ▸ hb)
    refine ⟨?_, fun h => absurd h hf⟩
    have h2 := hnames.filter (fun s => s != "fallback")
    have hpair : [a, b].filter (fun s => s != "fallback") = [a, b] := by
      simp [hafb, hbf]
    rw [hpair] at h2
    exact h2

/-- C10: for every record history and every duplicate-free list of
available strategies, get_strategy_order returns a permutation of the
available list: every supplied name exactly once, nothing else. -/
theorem c10_order_is_permutation_of_available
    (records : List AttemptRecord) (source : String)
    (available : List String) (now : ℚ) (hnd : available.Nodup) :
    List.Perm
      (AdaptiveRouter.get_strategy_order records source available now)
      available := by
  have hperm : List.Perm ((sortScoredDesc (available.map (fun st =>
      (st, AdaptiveRouter.strategy_score records source st now)))).map
        Prod.fst) available := by
    have h1 := (sortScoredDesc_perm (available.map (fun st =>
      (st, AdaptiveRouter.strategy_score records source st now)))).map
        Prod.fst
    have h2 : (available.map (fun st =>
        (st, AdaptiveRouter.strategy_score records source st now))).map
          Prod.fst = available := by
      rw [List.map_map]
      exact List.map_id _
    rwa [h2] at h1
  rw [get_strategy_order_eq]
  by_cases hf : "fallback" ∈ available
  · rw [if_pos hf]
    have hndn := hperm.nodup_iff.mpr hnd
    have hmemn := hperm.mem_iff.mpr hf
    exact (filter_ne_append_self_perm "fallback" _ hndn hmemn).trans hperm
  · rw [if_neg hf]
    have hmemn : "fallback" ∉ ((sortScoredDesc (available.map (fun st =>
        (st, AdaptiveRouter.strategy_score records source st now)))).map
          Prod.fst) := fun h => hf (hperm.mem_iff.mp h)
    have hfe : ((sortScoredDesc (available.map (fun st =>
        (st, AdaptiveRouter.strategy_score records source st now)))).map
          Prod.fst).filter (fun s => s != "fallback") =
        ((sortScoredDesc (available.map (fun st =>
          (st, AdaptiveRouter.strategy_score records source st now)))).map
            Prod.fst) :=
      List.filter_eq_self.mpr (fun x hx => by
        have hne : x ≠ "fallback" := fun h => hmemn (h ▸ hx)
        simp [hne])
    rw [hfe]
    exact hperm

/-- Concrete record history for the C5 witness: one successful attempt
with strategy curl and one failed attempt with strategy bad, both for
source airbnb at time 0. -/
def c5recs : List AttemptRecord :=
  [⟨0, "airbnb", "curl", true, 12, 5, none⟩,
   ⟨0, "airbnb", "bad", false, 3, 0, some "err"⟩]

/-- Witness for C5 at a concrete input: with c5recs and the available
strategies [bad, curl, fallback], curl (100 percent success) is ordered
before bad (0 percent success) and fallback comes last. -/
theorem c5_witness :
    ["curl", "bad"].Sublist
      (AdaptiveRouter.get_strategy_order c5recs "airbnb"
        ["bad", "curl", "fallback"] 0) ∧
    ("fallback" ∈ ["bad", "curl", "fallback"] →
      (AdaptiveRouter.get_strategy_order c5recs "airbnb"
        ["bad", "curl", "fallback"] 0).getLast? = some "fallback") := by
  refine c5_order_success_before_failure_fallback_last c5recs "airbnb"
    ["bad", "curl", "fallback"] 0 "curl" "bad"
    (by decide) (by decide) (by decide) ?_ ?_ ?_ ?_ <;>
    simp [StrategyMetrics.get_recent_records, c5recs]

/-- Witness for C10 at a concrete input: with no recorded metrics the
order of [curl, fallback] is a permutation of the available list. -/
theorem c10_witness :
    List.Perm
      (AdaptiveRouter.get_strategy_order [] "airbnb" ["curl", "fallback"] 0)
      ["curl", "fallback"] :=
  c10_order_is_permutation_of_available [] "airbnb" ["curl", "fallback"] 0
    (by decide)

/-- A raw listing dict as consumed by VacationAgent._invalid_reason
(src/holland_agent.py lines 319-350).  String fields carry the result of
str(deal.get(key, "")), so a missing key is the empty string; numeric
fields are optional rationals, none standing for a missing key or an
unparsable value (which _safe_float and _safe_int turn into their
defaults); pet_friendly carries the raw optional boolean, because the
source compares the value with `is not True`. -/
structure RawDeal where
  name : String
  location : String
  source : String
  url : String
  price_per_night : Option ℚ
  rating : Option ℚ
  reviews : Option ℚ
  pet_friendly : Option Bool

/-- Test of a falsy stripped Python string: str(x).strip() is empty
exactly when every character of the string is whitespace, which is how
_invalid_reason detects a missing or blank field. -/
def strBlank (s : String) : Bool :=
  s.toList.all (fun c => c.isWhitespace)

/-- Embedding of VacationAgent._safe_float (src/holland_agent.py):
the parsed numeric value, or the default when missing or unparsable. -/
def safe_float (v : Option ℚ) (default : ℚ) : ℚ :=
  match v with
  | some q => q
  | none => default

/-- Truncation toward zero, the behaviour of Python int(float(x)). -/
def ratTruncate (q : ℚ) : ℤ :=
  if 0 ≤ q then ⌊q⌋ else ⌈q⌉

/-- Embedding of VacationAgent._safe_int (src/holland_agent.py):
int(float(value)), or the default when missing or unparsable. -/
def safe_int (v : Option ℚ) (default : ℤ) : ℤ :=
  match v with
  | some q => ratTruncate q
  | none => default

/-- The closed set of rejection reason codes for dict-shaped listings. -/
def reasonCodes : List String :=
  ["missing_name", "missing_location", "missing_source", "missing_url",
   "invalid_price", "over_budget", "invalid_rating", "invalid_reviews",
   "not_pet_friendly"]

/-- Embedding of VacationAgent._invalid_reason (src/holland_agent.py
lines 319-350) for dict-shaped listings, which is what the data model
calls a raw listing (the source additionally answers invalid_payload for
a payload that is not a dict at all).  Checks run in a fixed order, the
first failing one wins; budget_max is float(self.budget_max), the
computed nightly cap. -/
def VacationAgent.invalid_reason (deal : RawDeal) (pets : ℤ)
    (budget_max : ℚ) : Option String :=
  if strBlank deal.name then some "missing_name"
  else if strBlank deal.location then some "missing_location"
  else if strBlank deal.source then some "missing_source"
  else if strBlank deal.url then some "missing_url"
  else
    let price := safe_float deal.price_per_night (-1)
    if price ≤ 0 then some "invalid_price"
    else if price > budget_max then some "over_budget"
    else
      let rating := safe_float deal.rating 0
      if rating < 0 ∨ rating > 5 then some "invalid_rating"
      else
        let reviews := safe_int deal.reviews 0
        if reviews < 0 then some "invalid_reviews"
        else if 0 < pets ∧ deal.pet_friendly ≠ some true then
          some "not_pet_friendly"
        else none

/-- C4 amended: classification is total (never an exception, exactly one
reason code from the closed nine-element set); the specific codes fire in
the fixed check order, each provided every earlier check passes: a
listing with non-blank name, location and source whose url is blank gets
missing_url; additionally with a positive parsed price above the nightly
cap it gets over_budget; and with all earlier checks passing and
pet_friendly not declared true, it gets not_pet_friendly exactly when the
requested pets count is positive. -/
theorem c4_validation_reason_codes (deal : RawDeal) (pets : ℤ)
    (budget_max : ℚ) :
    (∀ r, VacationAgent.invalid_reason deal pets budget_max = some r →
      r ∈ reasonCodes) ∧
    (strBlank deal.name = false → strBlank deal.location = false →
      strBlank deal.source = false → strBlank deal.url = true →
      VacationAgent.invalid_reason deal pets budget_max =
        some "missing_url") ∧
    (strBlank deal.name = false → strBlank deal.location = false →
      strBlank deal.source = false → strBlank deal.url = false →
      ¬ safe_float deal.price_per_night (-1) ≤ 0 →
      safe_float deal.price_per_night (-1) > budget_max →
      VacationAgent.invalid_reason deal pets budget_max =
        some "over_budget") ∧
    (strBlank deal.name = false → strBlank deal.location = false →
      strBlank deal.source = false → strBlank deal.url = false →
      ¬ safe_float deal.price_per_night (-1) ≤ 0 →
      ¬ safe_float deal.price_per_night (-1) > budget_max →
      ¬ (safe_float deal.rating 0 < 0 ∨ safe_float deal.rating 0 > 5) →
      ¬ safe_int deal.reviews 0 < 0 →
      deal.pet_friendly ≠ some true →
      (VacationAgent.invalid_reason deal pets budget_max =
          some "not_pet_friendly" ↔ 0 < pets)) := by
  refine ⟨?_, ?_, ?_, ?_⟩
  · intro r h
    simp only [VacationAgent.invalid_reason] at h
    split_ifs at h <;> simp_all [reasonCodes]
  · intro h1 h2 h3 h4
    simp [VacationAgent.invalid_reason, h1, h2, h3, h4]
  · intro h1 h2 h3 h4 hp hb
    simp [VacationAgent.invalid_reason, h1, h2, h3, h4, hp, hb]
  · intro h1 h2 h3 h4 hp hb hr hrev hpet
    by_cases hps : 0 < pets
    · simp [VacationAgent.invalid_reason, h1, h2, h3, h4, hp, hb, hr,
        hrev, hpet, hps]
    · simp [VacationAgent.invalid_reason, h1, h2, h3, h4, hp, hb, hr,
        hrev, hpet, hps]

/-- A listing with both the name and the url blank and every other field
unobjectionable: the C4 counterexample input. -/
def c4deal : RawDeal :=
  ⟨"", "Amsterdam", "airbnb", "", some 50, some 4, some 10, some true⟩

/-- C4 counterexample: a listing whose url is empty is not necessarily
rejected with missing_url, because the earlier name check masks it: c4deal
has a blank url yet is rejected with missing_name. -/
theorem c4_counterexample_missing_name_masks_missing_url :
    c4deal.url = "" ∧
    VacationAgent.invalid_reason c4deal 0 100 = some "missing_name" ∧
    VacationAgent.invalid_reason c4deal 0 100 ≠ some "missing_url" := by
  refine ⟨rfl, ?_, ?_⟩ <;> decide

/-- An otherwise valid listing with a blank url (C4 witness input). -/
def c4dealUrl : RawDeal :=
  ⟨"Casa", "Amsterdam", "airbnb", "", some 50, some 4, some 10, some true⟩

/-- An otherwise valid listing priced above the cap (C4 witness input). -/
def c4dealBudget : RawDeal :=
  ⟨"Casa", "Amsterdam", "airbnb", "x", some 500, some 4, some 10,
    some true⟩

/-- An otherwise valid listing that does not declare pet_friendly
(C4 witness input). -/
def c4dealPet : RawDeal :=
  ⟨"Casa", "Amsterdam", "airbnb", "x", some 50, some 4, some 10, none⟩

/-- Witness for C4 at concrete inputs with pets = 1 and a 100 EUR nightly
cap: blank url gives missing_url, price 500 gives over_budget, and an
undeclared pet_friendly gives not_pet_friendly exactly because pets is
positive. -/
theorem c4_witness :
    VacationAgent.invalid_reason c4dealUrl 1 100 = some "missing_url" ∧
    VacationAgent.invalid_reason c4dealBudget 1 100 = some "over_budget" ∧
    (VacationAgent.invalid_reason c4dealPet 1 100 =
        some "not_pet_friendly" ↔ (0 : ℤ) < 1) :=
  ⟨(c4_validation_reason_codes c4dealUrl 1 100).2.1
      (by decide) (by decide) (by decide) (by decide),
   (c4_validation_reason_codes c4dealBudget 1 100).2.2.1
      (by decide) (by decide) (by decide) (by decide)
      (by norm_num [safe_float, c4dealBudget])
      (by norm_num [safe_float, c4dealBudget]),
   (c4_validation_reason_codes c4dealPet 1 100).2.2.2
      (by decide) (by decide) (by decide) (by decide)
      (by norm_num [safe_float, c4dealPet])
      (by norm_num [safe_float, c4dealPet])
      (by norm_num [safe_float, c4dealPet])
      (by norm_num [safe_int, ratTruncate, c4dealPet])
      (by simp [c4dealPet])⟩

end LarsHoliday
